import Mathlib

/-!
Verification of the openrouter-key-manager CLI against its design
specification.  The definitions below are a shallow embedding of the
TypeScript sources: `src/lib/api-client.ts`, `src/lib/key-selector.ts`,
`src/commands/rotate.ts`, `src/commands/delete.ts`,
`src/commands/set-limit.ts` and the disable/enable command.  Remote HTTP
responses are supplied by an explicit oracle (`Remote`), and every
embedded operation additionally returns the ordered list of API calls it
issued, so that call-order and call-count properties can be stated.
-/

set_option autoImplicit false

namespace ORKM

/-- A credential record as returned by the provisioning API
(`OpenRouterKey` in `src/types.ts`).  `limit` is the nullable currency
ceiling (`limit?: number`). -/
structure OpenRouterKey where
  hash : String
  name : String
  disabled : Bool
  limit : Option ℚ
  deriving Repr, DecidableEq

/-- The record produced by the key selector
(`SelectedKey` in `src/lib/key-selector.ts`). -/
structure SelectedKey where
  name : String
  hash : String
  limit : Option ℚ
  deriving Repr, DecidableEq

/-- A freshly created credential as reported by the rotate command
(`KeyInfo` in `src/types.ts`). -/
structure KeyInfo where
  email : String
  tags : List String
  issuedDate : String
  keyName : String
  apiKey : String
  hash : String
  deriving Repr, DecidableEq

/-- A failure-bucket entry: `{ keyName, error }` as used by every batch
command. -/
structure BatchError where
  keyName : String
  error : String
  deriving Repr, DecidableEq

/-- One outbound API call of `OpenRouterClient`, recorded with the
arguments that determine the HTTP request. -/
inductive ApiCall where
  | listKeys (includeDisabled : Bool)
  | getKey (hash : String)
  | createKey (name : String) (limit : ℚ)
  | deleteKeyByHash (hash : String)
  | setKeyLimit (hash : String) (limit : ℚ)
  | patchDisabled (hash : String) (disabled : Bool)
  deriving Repr, DecidableEq

/-- Oracle for the remote provisioning service: the full stored listing
(used by `listKeys`) and the response each mutating or fetching call
would receive.  `createKeyResp` returns the `(key, hash)` pair of
`OpenRouterClient.createKey`. -/
structure Remote where
  keys : List OpenRouterKey
  getKeyResp : String → Except String OpenRouterKey
  createKeyResp : String → ℚ → Except String (String × String)
  deleteResp : String → Except String Unit
  setLimitResp : String → ℚ → Except String Unit
  patchDisabledResp : String → Bool → Except String Unit

/-- JavaScript truthiness of an optional string option: `undefined` and
the empty string are falsy, every other string is truthy. -/
def jsTruthy : Option String → Bool
  | none => false
  | some s => s ≠ ""

/-- JavaScript `a || b` where `a` is a possibly-absent string field: an
absent field and the empty string both fall through to `b`. -/
def jsOrStr (a : Option String) (b : String) : String :=
  match a with
  | none => b
  | some s => if s = "" then b else s

/-- `OpenRouterClient.listKeys` (`src/lib/api-client.ts`): requests
`keys?include_disabled=...`; the remote returns the full listing when
`include_disabled=true` and only the enabled records otherwise (response
format documented at the provisioning API reference cited in
`src/types.ts`). -/
def listKeys (remote : Remote) (includeDisabled : Bool) : List OpenRouterKey :=
  if includeDisabled then remote.keys
  else remote.keys.filter (fun k => !k.disabled)

/-- Core of `minimatch` as used on credential names: `*` matches any run
of characters and `?` matches exactly one character (names contain no
path separators, so `**` degenerates to `*`). -/
def globMatch : List Char → List Char → Bool
  | [], [] => true
  | [], _ :: _ => false
  | '*' :: ps, [] => globMatch ps []
  | '*' :: ps, c :: ss => globMatch ps (c :: ss) || globMatch ('*' :: ps) ss
  | '?' :: _, [] => false
  | '?' :: ps, _ :: ss => globMatch ps ss
  | _ :: _, [] => false
  | p :: ps, c :: ss => p == c && globMatch ps ss
  termination_by ps ss => (ps.length, ss.length)

/-- `minimatch(name, pat)` on whole credential names. -/
def minimatchName (name pat : String) : Bool :=
  globMatch pat.data name.data

/-- Options accepted by the key selector and the selector-based
commands: optional `--pattern` and `--hash`. -/
structure SelectorOptions where
  pattern : Option String
  hash : Option String
  deriving Repr, DecidableEq

/-- `getSelectedKeys` (`src/lib/key-selector.ts`): validates that
exactly one of `pattern`/`hash` is set, then lists with
`includeDisabled = true` and filters.  Returns the result together with
the trace of API calls issued. -/
def getSelectedKeys (remote : Remote) (options : SelectorOptions) :
    Except String (List SelectedKey) × List ApiCall :=
  if jsTruthy options.pattern && jsTruthy options.hash then
    (.error "Cannot specify both --pattern and --hash. Choose one.", [])
  else if !jsTruthy options.pattern && !jsTruthy options.hash then
    (.error "Either --pattern or --hash must be provided", [])
  else
    let allKeys := listKeys remote true
    if jsTruthy options.hash then
      let selectedKeys := allKeys.filter (fun k => k.hash == options.hash.getD "")
      if selectedKeys.length = 0 then
        (.error ("No key found with hash: " ++ options.hash.getD ""), [.listKeys true])
      else
        (.ok (selectedKeys.map (fun k => ⟨k.name, k.hash, k.limit⟩)), [.listKeys true])
    else
      let selectedKeys := allKeys.filter (fun k => minimatchName k.name (options.pattern.getD ""))
      if selectedKeys.length = 0 then
        (.error ("No keys match pattern: " ++ options.pattern.getD ""), [.listKeys true])
      else
        (.ok (selectedKeys.map (fun k => ⟨k.name, k.hash, k.limit⟩)), [.listKeys true])

/-- `OpenRouterClient.deleteKey` (`src/lib/api-client.ts`): resolves a
name through `listKeys()` — whose `includeDisabled` parameter defaults
to `false` — then deletes by hash; throws `Key not found` when no listed
key has exactly the requested name. -/
def deleteKey (remote : Remote) (keyName : String) :
    Except String Unit × List ApiCall :=
  let keys := listKeys remote false
  match keys.find? (fun k => k.name == keyName) with
  | none => (.error ("Key not found: " ++ keyName), [.listKeys false])
  | some targetKey =>
      (remote.deleteResp targetKey.hash, [.listKeys false, .deleteKeyByHash targetKey.hash])

/-! ### Retry policy (`src/lib/api-client.ts`) -/

/-- `RETRYABLE_STATUS_CODES` from `src/lib/api-client.ts`. -/
def RETRYABLE_STATUS_CODES : List ℕ := [429, 500, 502, 503, 504]

/-- `DEFAULT_MAX_RETRIES` from `src/lib/api-client.ts`. -/
def DEFAULT_MAX_RETRIES : ℕ := 3

/-- `response.ok`: HTTP status in the 2xx range. -/
def isOkStatus (status : ℕ) : Bool :=
  200 ≤ status && status < 300

/-- Whether a failed response status is in the configured
`retry.statusCodes` set. -/
def isRetryableStatus (status : ℕ) : Bool :=
  RETRYABLE_STATUS_CODES.contains status

/-- The `afterResponse` hook's status-to-error mapping: each non-2xx
response is turned into an `ApiError` whose message is prefixed
according to the `switch (status)` in the constructor of
`OpenRouterClient`.  `statusText` and `errorMessage` are the response's
status text and the string produced by `parseErrorMessage`. -/
def classifyError (status : ℕ) (statusText errorMessage : String) : String :=
  if status = 400 then "Bad request: " ++ errorMessage
  else if status = 401 then "Unauthorized: Invalid API key - " ++ errorMessage
  else if status = 404 then "Not found: " ++ errorMessage
  else if status = 429 then "Rate limit exceeded: " ++ errorMessage
  else if status = 500 then "Server error: " ++ errorMessage
  else "API request failed (" ++ toString status ++ "): " ++ statusText ++ " - " ++ errorMessage

/-- One attempt's observable response: HTTP status plus the message
material the error path would extract. -/
structure AttemptResponse where
  status : ℕ
  statusText : String
  errorMessage : String

/-- Retry loop of the configured HTTP client, attempt `attemptIdx`
onward with `retriesLeft` retries still allowed.  Modelled from the
retry contract the constructor of `OpenRouterClient` configures: a
non-2xx response is retried exactly when its status is in
`retry.statusCodes` and the retry budget (`retry.limit`, i.e.
`maxRetries`) is not exhausted; otherwise the classified error is
surfaced.  Returns the final outcome and the total number of attempts
made. -/
def runAttemptsFrom (responses : ℕ → AttemptResponse) (attemptIdx : ℕ) :
    ℕ → Except String Unit × ℕ
  | 0 =>
      let r := responses attemptIdx
      if isOkStatus r.status then (.ok (), attemptIdx + 1)
      else (.error (classifyError r.status r.statusText r.errorMessage), attemptIdx + 1)
  | retriesLeft + 1 =>
      let r := responses attemptIdx
      if isOkStatus r.status then (.ok (), attemptIdx + 1)
      else if isRetryableStatus r.status then
        runAttemptsFrom responses (attemptIdx + 1) retriesLeft
      else (.error (classifyError r.status r.statusText r.errorMessage), attemptIdx + 1)

/-- A full request under the retry policy: first attempt plus at most
`maxRetries` retries, where `responses n` is the response the
`(n+1)`-st attempt would receive. -/
def runWithRetries (maxRetries : ℕ) (responses : ℕ → AttemptResponse) :
    Except String Unit × ℕ :=
  runAttemptsFrom responses 0 maxRetries

/-! ### Backoff delay (`retry.delay` in the client configuration) -/

/-- `INITIAL_BACKOFF_MS` from `src/lib/api-client.ts`. -/
def INITIAL_BACKOFF_MS : ℚ := 1000

/-- `MAX_RETRY_DELAY_MS` from `src/lib/api-client.ts`. -/
def MAX_RETRY_DELAY_MS : ℚ := 30000

/-- `MAX_BACKOFF_MS` (the configured `backoffLimit`) from
`src/lib/api-client.ts`. -/
def MAX_BACKOFF_MS : ℚ := 60000

/-- The configured `retry.delay` callback:
`Math.min(INITIAL_BACKOFF_MS * 2 ** (attemptCount - 1), MAX_RETRY_DELAY_MS)
 + Math.random() * INITIAL_BACKOFF_MS`, with `r` standing for the value
of `Math.random()`. -/
def retryDelay (attemptCount : ℕ) (r : ℚ) : ℚ :=
  min (INITIAL_BACKOFF_MS * 2 ^ (attemptCount - 1)) MAX_RETRY_DELAY_MS
    + r * INITIAL_BACKOFF_MS

/-- The delay actually waited before a retry: the configured delay
callback capped by the configured `backoffLimit`. -/
def effectiveRetryDelay (attemptCount : ℕ) (r : ℚ) : ℚ :=
  min MAX_BACKOFF_MS (retryDelay attemptCount r)

/-! ### Rate-limit delay (`OpenRouterClient.calculateRateLimitDelay`) -/

/-- `MILLISECONDS_PER_SECOND` from `src/lib/api-client.ts`. -/
def MILLISECONDS_PER_SECOND : ℤ := 1000

/-- `DEFAULT_RATE_LIMIT_DELAY_MS` from `src/lib/api-client.ts`. -/
def DEFAULT_RATE_LIMIT_DELAY_MS : ℤ := 5000

/-- The two response headers `calculateRateLimitDelay` inspects, each
`none` when absent and otherwise the integer `parseInt` extracts:
`Retry-After` in seconds and `X-RateLimit-Reset` in epoch seconds. -/
structure RateLimitHeaders where
  retryAfter : Option ℤ
  resetTime : Option ℤ
  deriving Repr, DecidableEq

/-- `OpenRouterClient.calculateRateLimitDelay` at current epoch time
`now` (milliseconds): `Retry-After` seconds converted to milliseconds
take priority; else the wait until `X-RateLimit-Reset`, floored at one
second; else the default delay. -/
def calculateRateLimitDelay (headers : RateLimitHeaders) (now : ℤ) : ℤ :=
  match headers.retryAfter with
  | some n => n * MILLISECONDS_PER_SECOND
  | none =>
    match headers.resetTime with
    | some reset => max (reset * MILLISECONDS_PER_SECOND - now) MILLISECONDS_PER_SECOND
    | none => DEFAULT_RATE_LIMIT_DELAY_MS

/-- The wait performed by the `beforeRetry` hook for a failed attempt
with the given status: only a 429 triggers the rate-limit wait, and its
duration is `calculateRateLimitDelay`. -/
def beforeRetryWait (status : ℕ) (headers : RateLimitHeaders) (now : ℤ) : ℤ :=
  if status = 429 then calculateRateLimitDelay headers now else 0

/-! ### Error-message extraction (`OpenRouterClient.parseErrorMessage`) -/

/-- A non-2xx response body as `parseErrorMessage` can observe it:
either JSON that parses to an object (with the optional string fields
`error.message` and `message`, and its `JSON.stringify` serialization),
JSON that parses to a non-object value, or a body that is not JSON at
all (only its raw text is available). -/
inductive ErrorBody where
  | jsonObj (nestedMessage : Option String) (topMessage : Option String)
      (stringified : String)
  | jsonNonObj (stringified : String)
  | notJson (rawText : String)
  deriving Repr, DecidableEq

/-- `OpenRouterClient.parseErrorMessage`: for a JSON object body,
`(err.error?.message) || (err.message) || JSON.stringify(errorJson)`
with JavaScript `||` (an empty string falls through); for non-object
JSON, its serialization; when JSON parsing throws, the raw response
text. -/
def parseErrorMessage : ErrorBody → String
  | .jsonObj nestedMessage topMessage stringified =>
      jsOrStr nestedMessage (jsOrStr topMessage stringified)
  | .jsonNonObj stringified => stringified
  | .notJson rawText => rawText

/-- The extraction rule as the specification words it: the nested
`error.message` field whenever present, otherwise the top-level
`message` field whenever present, otherwise the response text.  Stated
for comparison with `parseErrorMessage`. -/
def specErrorExtraction : ErrorBody → String
  | .jsonObj nestedMessage topMessage stringified =>
      (match nestedMessage with
       | some m => m
       | none =>
         match topMessage with
         | some m => m
         | none => stringified)
  | .jsonNonObj stringified => stringified
  | .notJson rawText => rawText

/-! ### Batch command loops (`src/commands/*.ts`) -/

/-- Result of the `rotate` command (`RotateResult` in
`src/commands/rotate.ts`). -/
structure RotateResult where
  rotated : List KeyInfo
  errors : List BatchError
  deriving Repr, DecidableEq

/-- The per-target body of the `rotate` loop
(`src/commands/rotate.ts`, lines 26–56): `getKey(oldKey.hash)`, then
`deleteKeyByHash(oldKey.hash)`, then
`createKey(keyDetails.name, keyDetails.limit ?? 0)`; the first failing
call aborts the remaining steps of this target.  Returns the outcome
together with the API calls issued for this target, in order. -/
def rotateStep (remote : Remote) (today : String) (oldKey : SelectedKey) :
    Except String KeyInfo × List ApiCall :=
  match remote.getKeyResp oldKey.hash with
  | .error e => (.error e, [.getKey oldKey.hash])
  | .ok keyDetails =>
    match remote.deleteResp oldKey.hash with
    | .error e => (.error e, [.getKey oldKey.hash, .deleteKeyByHash oldKey.hash])
    | .ok _ =>
      let limitArg := keyDetails.limit.getD 0
      match remote.createKeyResp keyDetails.name limitArg with
      | .error e =>
          (.error e,
           [.getKey oldKey.hash, .deleteKeyByHash oldKey.hash,
            .createKey keyDetails.name limitArg])
      | .ok (newApiKey, newHash) =>
          (.ok { email := "", tags := [], issuedDate := today,
                 keyName := keyDetails.name, apiKey := newApiKey, hash := newHash },
           [.getKey oldKey.hash, .deleteKeyByHash oldKey.hash,
            .createKey keyDetails.name limitArg])

/-- The `for (const oldKey of keysToRotate)` loop of `rotate`: each
target's outcome is appended to `rotated` or, via the per-target
`try/catch`, to `errors` (keyed by `oldKey.name`), and the loop always
continues with the next target. -/
def rotateLoop (remote : Remote) (today : String) :
    List SelectedKey → RotateResult × List ApiCall
  | [] => ({ rotated := [], errors := [] }, [])
  | oldKey :: rest =>
      let (res, calls) := rotateStep remote today oldKey
      let (restResult, restCalls) := rotateLoop remote today rest
      match res with
      | .ok info =>
          ({ rotated := info :: restResult.rotated, errors := restResult.errors },
           calls ++ restCalls)
      | .error e =>
          ({ rotated := restResult.rotated,
             errors := { keyName := oldKey.name, error := e } :: restResult.errors },
           calls ++ restCalls)

/-- The deletion loop of the `delete` command
(`src/commands/delete.ts`, lines 83–99): `deleteKeyByHash(key.hash)`
per target, successes collected by name, failures by
`{ keyName, error }`. -/
def deleteLoop (remote : Remote) :
    List OpenRouterKey → (List String × List BatchError) × List ApiCall
  | [] => (([], []), [])
  | key :: rest =>
      let restOut := deleteLoop remote rest
      match remote.deleteResp key.hash with
      | .ok _ =>
          ((key.name :: restOut.1.1, restOut.1.2),
           .deleteKeyByHash key.hash :: restOut.2)
      | .error e =>
          ((restOut.1.1, { keyName := key.name, error := e } :: restOut.1.2),
           .deleteKeyByHash key.hash :: restOut.2)

/-- The update loop of the `set-limit` command
(`src/commands/set-limit.ts`): `setKeyLimit(key.hash, options.limit)`
per target. -/
def setLimitLoop (remote : Remote) (limit : ℚ) :
    List SelectedKey → (List String × List BatchError) × List ApiCall
  | [] => (([], []), [])
  | key :: rest =>
      let restOut := setLimitLoop remote limit rest
      match remote.setLimitResp key.hash limit with
      | .ok _ =>
          ((key.name :: restOut.1.1, restOut.1.2),
           .setKeyLimit key.hash limit :: restOut.2)
      | .error e =>
          ((restOut.1.1, { keyName := key.name, error := e } :: restOut.1.2),
           .setKeyLimit key.hash limit :: restOut.2)

/-- The modification loop of the disable/enable command: per target,
`enableKey` (PATCH `disabled: false`) when `--enable` is set, otherwise
`disableKey` (PATCH `disabled: true`). -/
def disableLoop (remote : Remote) (enable : Bool) :
    List OpenRouterKey → (List String × List BatchError) × List ApiCall
  | [] => (([], []), [])
  | key :: rest =>
      let restOut := disableLoop remote enable rest
      match remote.patchDisabledResp key.hash (!enable) with
      | .ok _ =>
          ((key.name :: restOut.1.1, restOut.1.2),
           .patchDisabled key.hash (!enable) :: restOut.2)
      | .error e =>
          ((restOut.1.1, { keyName := key.name, error := e } :: restOut.1.2),
           .patchDisabled key.hash (!enable) :: restOut.2)

/-- Options of the `delete` command (`src/commands/delete.ts`):
optional `--pattern`, `--hash` and the `--confirm` pre-authorization
flag. -/
structure DeleteOptions where
  pattern : Option String
  hash : Option String
  confirm : Bool
  deriving Repr, DecidableEq

/-- Target resolution of `deleteCommand` (after its validation): list
with `includeDisabled = true`, filter by `--hash` equality or
`--pattern` glob match, and fail when the filter selects nothing. -/
def deleteTargets (remote : Remote) (options : DeleteOptions) :
    Except String (List OpenRouterKey) :=
  let allKeys := listKeys remote true
  if jsTruthy options.hash then
    let keysToDelete := allKeys.filter (fun k => k.hash == options.hash.getD "")
    if keysToDelete.length = 0 then
      .error ("No key found with hash: " ++ options.hash.getD "")
    else .ok keysToDelete
  else
    let keysToDelete := allKeys.filter (fun k => minimatchName k.name (options.pattern.getD ""))
    if keysToDelete.length = 0 then
      .error ("No keys match pattern: " ++ options.pattern.getD "")
    else .ok keysToDelete

/-- `deleteCommand` (`src/commands/delete.ts`): validates
exactly-one-of `pattern`/`hash`, resolves the targets, then — unless
`--confirm` was given — blocks on the confirmation prompt, whose
external answer is `answer`.  A "no" answer returns with nothing
deleted; otherwise the deletion loop runs.  The trace records every API
call of the whole run, in order. -/
def deleteCommand (remote : Remote) (options : DeleteOptions) (answer : Bool) :
    Except String (List String × List BatchError) × List ApiCall :=
  if jsTruthy options.pattern && jsTruthy options.hash then
    (.error "Cannot specify both --pattern and --hash. Choose one.", [])
  else if !jsTruthy options.pattern && !jsTruthy options.hash then
    (.error "Either --pattern or --hash must be provided", [])
  else
    match deleteTargets remote options with
    | .error e => (.error e, [.listKeys true])
    | .ok keysToDelete =>
      if !options.confirm && decide (0 < keysToDelete.length) && !answer then
        (.ok ([], []), [.listKeys true])
      else
        let (result, calls) := deleteLoop remote keysToDelete
        (.ok result, .listKeys true :: calls)

/-! ### Helper lemmas -/

theorem rotateLoop_partition_len (remote : Remote) (today : String) :
    ∀ keys : List SelectedKey,
      (rotateLoop remote today keys).1.rotated.length
        + (rotateLoop remote today keys).1.errors.length = keys.length
  | [] => by simp [rotateLoop]
  | oldKey :: rest => by
      have ih := rotateLoop_partition_len remote today rest
      rcases h : rotateStep remote today oldKey with ⟨res, calls⟩
      cases res <;> simp [rotateLoop, h] <;> omega

theorem deleteLoop_partition_len (remote : Remote) :
    ∀ keys : List OpenRouterKey,
      (deleteLoop remote keys).1.1.length + (deleteLoop remote keys).1.2.length
        = keys.length
  | [] => by simp [deleteLoop]
  | key :: rest => by
      have ih := deleteLoop_partition_len remote rest
      rcases h : remote.deleteResp key.hash with e | u <;>
        simp [deleteLoop, h] <;> omega

theorem setLimitLoop_partition_len (remote : Remote) (limit : ℚ) :
    ∀ keys : List SelectedKey,
      (setLimitLoop remote limit keys).1.1.length
        + (setLimitLoop remote limit keys).1.2.length = keys.length
  | [] => by simp [setLimitLoop]
  | key :: rest => by
      have ih := setLimitLoop_partition_len remote limit rest
      rcases h : remote.setLimitResp key.hash limit with e | u <;>
        simp [setLimitLoop, h] <;> omega

theorem disableLoop_partition_len (remote : Remote) (enable : Bool) :
    ∀ keys : List OpenRouterKey,
      (disableLoop remote enable keys).1.1.length
        + (disableLoop remote enable keys).1.2.length = keys.length
  | [] => by simp [disableLoop]
  | key :: rest => by
      have ih := disableLoop_partition_len remote enable rest
      rcases h : remote.patchDisabledResp key.hash (!enable) with e | u <;>
        simp [disableLoop, h] <;> omega

/-! ### Claims -/

/-- C1: for every batch run over a resolved list of N targets, each of
the four batch operations (rotate, delete, disable/enable, set-limit)
puts every target in exactly one of the two result buckets, so the
number of succeeded entries plus the number of failed entries equals N,
whatever the per-target outcomes are. -/
theorem batch_buckets_partition (remote : Remote) (today : String) (limit : ℚ)
    (enable : Bool) (selTargets : List SelectedKey)
    (keyTargets : List OpenRouterKey) :
    ((rotateLoop remote today selTargets).1.rotated.length
        + (rotateLoop remote today selTargets).1.errors.length
        = selTargets.length)
    ∧ ((deleteLoop remote keyTargets).1.1.length
        + (deleteLoop remote keyTargets).1.2.length = keyTargets.length)
    ∧ ((setLimitLoop remote limit selTargets).1.1.length
        + (setLimitLoop remote limit selTargets).1.2.length = selTargets.length)
    ∧ ((disableLoop remote enable keyTargets).1.1.length
        + (disableLoop remote enable keyTargets).1.2.length
        = keyTargets.length) :=
  ⟨rotateLoop_partition_len remote today selTargets,
   deleteLoop_partition_len remote keyTargets,
   setLimitLoop_partition_len remote limit selTargets,
   disableLoop_partition_len remote enable keyTargets⟩

/-- C2: per rotate target the steps run as `get(hash)`, then
`delete(hash)`, then `create(sameName, limit)`.  When `create` fails
after `delete` succeeded, the target lands in the failure bucket with
the error message, nothing for it is added to the success bucket, the
calls issued for it are exactly the three listed ones (no compensating
rollback call), and the remaining targets are still processed. -/
theorem rotate_compound_create_failure (remote : Remote) (today : String)
    (oldKey : SelectedKey) (keyDetails : OpenRouterKey) (e : String)
    (rest : List SelectedKey)
    (hget : remote.getKeyResp oldKey.hash = .ok keyDetails)
    (hdel : remote.deleteResp oldKey.hash = .ok ())
    (hcreate : remote.createKeyResp keyDetails.name (keyDetails.limit.getD 0)
        = .error e) :
    rotateStep remote today oldKey
      = (.error e,
         [.getKey oldKey.hash, .deleteKeyByHash oldKey.hash,
          .createKey keyDetails.name (keyDetails.limit.getD 0)])
    ∧ (rotateLoop remote today (oldKey :: rest)).1.rotated
        = (rotateLoop remote today rest).1.rotated
    ∧ (rotateLoop remote today (oldKey :: rest)).1.errors
        = { keyName := oldKey.name, error := e }
            :: (rotateLoop remote today rest).1.errors
    ∧ (rotateLoop remote today (oldKey :: rest)).2
        = [.getKey oldKey.hash, .deleteKeyByHash oldKey.hash,
           .createKey keyDetails.name (keyDetails.limit.getD 0)]
          ++ (rotateLoop remote today rest).2 := by
  have hstep : rotateStep remote today oldKey
      = (.error e,
         [.getKey oldKey.hash, .deleteKeyByHash oldKey.hash,
          .createKey keyDetails.name (keyDetails.limit.getD 0)]) := by
    simp [rotateStep, hget, hdel, hcreate]
  refine ⟨hstep, ?_, ?_, ?_⟩ <;> simp [rotateLoop, hstep]

/-- Remote fixture for the rotate witnesses: `getKey` knows the key
`h1`, deletion succeeds, and `createKey` always fails. -/
def wRemoteCreateFails : Remote where
  keys := [⟨"h1", "alice", false, some 10⟩]
  getKeyResp := fun h =>
    if h = "h1" then .ok ⟨"h1", "alice", false, some 10⟩
    else .error "Not found: No key"
  createKeyResp := fun _ _ => .error "Server error: boom"
  deleteResp := fun _ => .ok ()
  setLimitResp := fun _ _ => .ok ()
  patchDisabledResp := fun _ _ => .ok ()

/-- Witness for C2 at a concrete remote and target. -/
theorem rotate_compound_create_failure_witness :
    rotateStep wRemoteCreateFails "2026-10-11" ⟨"alice", "h1", some 10⟩
      = (.error "Server error: boom",
         [.getKey "h1", .deleteKeyByHash "h1", .createKey "alice" 10])
    ∧ (rotateLoop wRemoteCreateFails "2026-10-11" [⟨"alice", "h1", some 10⟩]).1.rotated
        = (rotateLoop wRemoteCreateFails "2026-10-11" []).1.rotated
    ∧ (rotateLoop wRemoteCreateFails "2026-10-11" [⟨"alice", "h1", some 10⟩]).1.errors
        = { keyName := "alice", error := "Server error: boom" }
            :: (rotateLoop wRemoteCreateFails "2026-10-11" []).1.errors
    ∧ (rotateLoop wRemoteCreateFails "2026-10-11" [⟨"alice", "h1", some 10⟩]).2
        = [.getKey "h1", .deleteKeyByHash "h1", .createKey "alice" 10]
          ++ (rotateLoop wRemoteCreateFails "2026-10-11" []).2 :=
  rotate_compound_create_failure wRemoteCreateFails "2026-10-11"
    ⟨"alice", "h1", some 10⟩ ⟨"h1", "alice", false, some 10⟩
    "Server error: boom" [] (by simp [wRemoteCreateFails]) rfl rfl

/-- C9 counterexample: a credential whose `limit` is null is rotated
successfully, but the replacement is created with limit `0`, which is
not the original (absent) limit. -/
def ceRemoteNullLimit : Remote where
  keys := [⟨"h3", "carol", false, none⟩]
  getKeyResp := fun h =>
    if h = "h3" then .ok ⟨"h3", "carol", false, none⟩
    else .error "Not found: No key"
  createKeyResp := fun _ _ => .ok ("sk-new", "h4")
  deleteResp := fun _ => .ok ()
  setLimitResp := fun _ _ => .ok ()
  patchDisabledResp := fun _ _ => .ok ()

/-- C9 is false as stated: rotating the null-limit credential `h3`
issues `createKey("carol", 0)` — the create call carries the numeric
limit `0` even though the credential returned by `get` has no limit
(`limit = none`), so the replacement is not created with the same
limit. -/
theorem rotate_null_limit_ce :
    rotateStep ceRemoteNullLimit "2026-10-11" ⟨"carol", "h3", none⟩
      = (.ok ⟨"", [], "2026-10-11", "carol", "sk-new", "h4"⟩,
         [.getKey "h3", .deleteKeyByHash "h3", .createKey "carol" 0])
    ∧ (⟨"h3", "carol", false, none⟩ : OpenRouterKey).limit ≠ some 0 := by
  constructor
  · simp [rotateStep, ceRemoteNullLimit]
  · simp

/-- C9 (amended): a successfully rotated target's replacement is created
with exactly the original name, and with the original limit whenever
that limit is non-null; when the original limit is null the replacement
is created with limit `0` instead. -/
theorem rotate_same_name_limit (remote : Remote) (today : String)
    (oldKey : SelectedKey) (keyDetails : OpenRouterKey)
    (newKey newHash : String)
    (hget : remote.getKeyResp oldKey.hash = .ok keyDetails)
    (hdel : remote.deleteResp oldKey.hash = .ok ())
    (hcreate : remote.createKeyResp keyDetails.name (keyDetails.limit.getD 0)
        = .ok (newKey, newHash)) :
    rotateStep remote today oldKey
      = (.ok ⟨"", [], today, keyDetails.name, newKey, newHash⟩,
         [.getKey oldKey.hash, .deleteKeyByHash oldKey.hash,
          .createKey keyDetails.name (keyDetails.limit.getD 0)])
    ∧ (∀ l, keyDetails.limit = some l → keyDetails.limit.getD 0 = l)
    ∧ (keyDetails.limit = none → keyDetails.limit.getD 0 = 0) := by
  refine ⟨by simp [rotateStep, hget, hdel, hcreate], ?_, ?_⟩
  · intro l hl
    simp [hl]
  · intro hl
    simp [hl]

/-- Witness for the amended C9 at a concrete remote and target. -/
theorem rotate_same_name_limit_witness :
    rotateStep ceRemoteNullLimit "2026-10-11" ⟨"carol", "h3", none⟩
      = (.ok ⟨"", [], "2026-10-11", "carol", "sk-new", "h4"⟩,
         [.getKey "h3", .deleteKeyByHash "h3", .createKey "carol" 0]) :=
  (rotate_same_name_limit ceRemoteNullLimit "2026-10-11" ⟨"carol", "h3", none⟩
    ⟨"h3", "carol", false, none⟩ "sk-new" "h4"
    (by simp [ceRemoteNullLimit]) rfl rfl).1

theorem runAttemptsFrom_le (responses : ℕ → AttemptResponse) :
    ∀ (retriesLeft attemptIdx : ℕ),
      (runAttemptsFrom responses attemptIdx retriesLeft).2
        ≤ attemptIdx + retriesLeft + 1
  | 0, attemptIdx => by
      by_cases h : isOkStatus (responses attemptIdx).status = true <;>
        simp [runAttemptsFrom, h]
  | retriesLeft + 1, attemptIdx => by
      have ih := runAttemptsFrom_le responses retriesLeft (attemptIdx + 1)
      by_cases h1 : isOkStatus (responses attemptIdx).status = true
      · simp [runAttemptsFrom, h1]
      · by_cases h2 : isRetryableStatus (responses attemptIdx).status = true
        · simp only [runAttemptsFrom, h1, h2]
          simp only [Bool.false_eq_true, if_false, if_true]
          omega
        · simp [runAttemptsFrom, h1, h2]

theorem runAttemptsFrom_mid_retryable (responses : ℕ → AttemptResponse) :
    ∀ (retriesLeft attemptIdx k : ℕ), attemptIdx ≤ k →
      k + 1 < (runAttemptsFrom responses attemptIdx retriesLeft).2 →
      isRetryableStatus (responses k).status = true
        ∧ isOkStatus (responses k).status = false
  | 0, attemptIdx, k => by
      intro hle hlt
      by_cases h : isOkStatus (responses attemptIdx).status = true <;>
        simp [runAttemptsFrom, h] at hlt <;> omega
  | retriesLeft + 1, attemptIdx, k => by
      intro hle hlt
      by_cases h1 : isOkStatus (responses attemptIdx).status = true
      · simp [runAttemptsFrom, h1] at hlt
        omega
      · by_cases h2 : isRetryableStatus (responses attemptIdx).status = true
        · rcases Nat.eq_or_lt_of_le hle with heq | hlt2
          · subst heq
            exact ⟨h2, by simpa using h1⟩
          · have ih := runAttemptsFrom_mid_retryable responses retriesLeft
              (attemptIdx + 1) k hlt2
            apply ih
            simpa [runAttemptsFrom, h1, h2] using hlt
        · simp [runAttemptsFrom, h1, h2] at hlt
          omega

/-- C3: a first response whose status is outside the retryable set
`{429, 500, 502, 503, 504}` (and not 2xx) fails immediately with the
classified error after exactly one attempt — zero retries; in every
run, at most `maxRetries + 1` attempts are made, and every attempt that
was followed by another one had received a non-2xx status from the
retryable set. -/
theorem nonretryable_immediate_error (maxRetries : ℕ)
    (responses : ℕ → AttemptResponse) :
    (isOkStatus (responses 0).status = false →
      isRetryableStatus (responses 0).status = false →
      runWithRetries maxRetries responses
        = (.error (classifyError (responses 0).status (responses 0).statusText
            (responses 0).errorMessage), 1))
    ∧ (runWithRetries maxRetries responses).2 ≤ maxRetries + 1
    ∧ (∀ k, k + 1 < (runWithRetries maxRetries responses).2 →
        isRetryableStatus (responses k).status = true
          ∧ isOkStatus (responses k).status = false) := by
  refine ⟨?_, ?_, ?_⟩
  · intro h1 h2
    cases maxRetries <;> simp [runWithRetries, runAttemptsFrom, h1, h2]
  · simpa [runWithRetries] using runAttemptsFrom_le responses maxRetries 0
  · intro k hk
    exact runAttemptsFrom_mid_retryable responses maxRetries 0 k (Nat.zero_le k) hk

/-- Witness for C3: a run whose every attempt would receive 400 fails
with the classified bad-request error after a single attempt. -/
theorem nonretryable_immediate_error_witness :
    runWithRetries DEFAULT_MAX_RETRIES (fun _ => ⟨400, "Bad Request", "oops"⟩)
      = (.error (classifyError 400 "Bad Request" "oops"), 1) :=
  (nonretryable_immediate_error DEFAULT_MAX_RETRIES
      (fun _ => ⟨400, "Bad Request", "oops"⟩)).1 (by decide) (by decide)

/-- C4: for retry attempt `k ≥ 1` the delay actually waited (the
configured delay callback capped by the configured `backoffLimit`)
equals `min(initialDelay * 2^(k-1), capDelay) + r * initialDelay` with
`initialDelay = 1000` ms, `capDelay = 30000` ms and `r = Math.random()
∈ [0, 1)`; hence it lies in the half-open interval from the capped
exponential base to that base plus `initialDelay`. -/
theorem backoff_delay_formula (k : ℕ) (r : ℚ) (_hk : 1 ≤ k)
    (h0 : 0 ≤ r) (h1 : r < 1) :
    effectiveRetryDelay k r
        = min (1000 * 2 ^ (k - 1)) 30000 + r * 1000
    ∧ min (1000 * 2 ^ (k - 1)) 30000 ≤ effectiveRetryDelay k r
    ∧ effectiveRetryDelay k r < min (1000 * 2 ^ (k - 1)) 30000 + 1000 := by
  have hjit0 : (0 : ℚ) ≤ r * 1000 := by positivity
  have hjit1 : r * 1000 < 1000 := by nlinarith
  have hbase : min (1000 * 2 ^ (k - 1)) (30000 : ℚ) ≤ 30000 :=
    min_le_right _ _
  have hcap : retryDelay k r ≤ 60000 := by
    unfold retryDelay INITIAL_BACKOFF_MS MAX_RETRY_DELAY_MS
    linarith
  have heff : effectiveRetryDelay k r = retryDelay k r := by
    unfold effectiveRetryDelay MAX_BACKOFF_MS
    exact min_eq_right hcap
  have hform : retryDelay k r = min (1000 * 2 ^ (k - 1)) 30000 + r * 1000 := by
    unfold retryDelay INITIAL_BACKOFF_MS MAX_RETRY_DELAY_MS
    ring_nf
  refine ⟨by rw [heff, hform], ?_, ?_⟩
  · rw [heff, hform]
    linarith
  · rw [heff, hform]
    linarith

/-- Witness for C4 at attempt 2 with `Math.random() = 1/2`: the wait is
exactly 2500 ms, inside `[2000, 3000)`. -/
theorem backoff_delay_formula_witness :
    effectiveRetryDelay 2 (1 / 2) = 2500
    ∧ 2000 ≤ effectiveRetryDelay 2 (1 / 2)
    ∧ effectiveRetryDelay 2 (1 / 2) < 3000 := by
  have h := backoff_delay_formula 2 (1 / 2) (by norm_num) (by norm_num)
    (by norm_num)
  obtain ⟨he, hlo, hhi⟩ := h
  norm_num at he hlo hhi
  exact ⟨he, hlo, hhi⟩

/-- C5: for a 429 the `beforeRetry` hook waits for
`calculateRateLimitDelay`, which is computed from the rate-limit
headers and not from the exponential formula: a parsed `Retry-After`
of `n` seconds gives a wait of exactly `n * 1000` ms, and when only
`X-RateLimit-Reset` is present and that reset time has already
elapsed, the wait is the one-second floor rather than zero. -/
theorem rate_limit_delay_from_headers (headers : RateLimitHeaders) (now : ℤ) :
    beforeRetryWait 429 headers now = calculateRateLimitDelay headers now
    ∧ (∀ n, headers.retryAfter = some n →
        calculateRateLimitDelay headers now = n * MILLISECONDS_PER_SECOND)
    ∧ (∀ reset, headers.retryAfter = none → headers.resetTime = some reset →
        reset * MILLISECONDS_PER_SECOND ≤ now →
        calculateRateLimitDelay headers now = MILLISECONDS_PER_SECOND) := by
  refine ⟨by simp [beforeRetryWait], ?_, ?_⟩
  · intro n hn
    simp [calculateRateLimitDelay, hn]
  · intro reset hnone hreset helapsed
    have : reset * MILLISECONDS_PER_SECOND - now ≤ MILLISECONDS_PER_SECOND := by
      unfold MILLISECONDS_PER_SECOND at helapsed ⊢
      omega
    simp [calculateRateLimitDelay, hnone, hreset, max_eq_right this]

/-- Witness for C5: `Retry-After: 2` yields a 2000 ms wait, and an
already-elapsed `X-RateLimit-Reset` yields the 1000 ms floor. -/
theorem rate_limit_delay_from_headers_witness :
    calculateRateLimitDelay ⟨some 2, none⟩ 0 = 2 * MILLISECONDS_PER_SECOND
    ∧ calculateRateLimitDelay ⟨none, some 5⟩ 10000 = MILLISECONDS_PER_SECOND :=
  ⟨(rate_limit_delay_from_headers ⟨some 2, none⟩ 0).2.1 2 rfl,
   (rate_limit_delay_from_headers ⟨none, some 5⟩ 10000).2.2 5 rfl rfl
     (by norm_num [MILLISECONDS_PER_SECOND])⟩

/-- C6 is false as stated: for a body whose nested `error.message`
field is present but empty while a top-level `message` is also present,
the code's JavaScript `||` chain skips the present nested field and
returns the top-level one, whereas the stated priority order would
return the (present) nested field. -/
theorem error_extraction_empty_message_ce :
    parseErrorMessage (.jsonObj (some "") (some "outer") "serialized-body")
        = "outer"
    ∧ specErrorExtraction (.jsonObj (some "") (some "outer") "serialized-body")
        = ""
    ∧ parseErrorMessage (.jsonObj (some "") (some "outer") "serialized-body")
        ≠ specErrorExtraction
            (.jsonObj (some "") (some "outer") "serialized-body") := by
  refine ⟨rfl, rfl, ?_⟩
  decide

/-- C6 (amended): the extracted message is the nested `error.message`
whenever it is present and non-empty, otherwise the top-level `message`
whenever it is present and non-empty, otherwise the serialization of
the JSON body; for a body that is not JSON at all, the raw response
text. -/
theorem error_extraction_priority (nested top : Option String)
    (str raw : String) :
    (∀ m, nested = some m → m ≠ "" →
        parseErrorMessage (.jsonObj nested top str) = m)
    ∧ ((nested = none ∨ nested = some "") →
        (∀ m, top = some m → m ≠ "" →
            parseErrorMessage (.jsonObj nested top str) = m)
        ∧ ((top = none ∨ top = some "") →
            parseErrorMessage (.jsonObj nested top str) = str))
    ∧ parseErrorMessage (.jsonNonObj str) = str
    ∧ parseErrorMessage (.notJson raw) = raw := by
  refine ⟨?_, ?_, rfl, rfl⟩
  · intro m hm hne
    simp [parseErrorMessage, jsOrStr, hm, hne]
  · intro hnested
    constructor
    · intro m hm hne
      rcases hnested with h | h <;>
        simp [parseErrorMessage, jsOrStr, h, hm, hne]
    · intro htop
      rcases hnested with h | h <;> rcases htop with h2 | h2 <;>
        simp [parseErrorMessage, jsOrStr, h, h2]

/-- Witness for the amended C6: a non-empty nested message wins, and
with both message fields empty or absent the serialization is
returned. -/
theorem error_extraction_priority_witness :
    parseErrorMessage (.jsonObj (some "inner") (some "outer") "serialized-body")
        = "inner"
    ∧ parseErrorMessage (.jsonObj (some "") none "serialized-body")
        = "serialized-body" :=
  ⟨(error_extraction_priority (some "inner") (some "outer")
      "serialized-body" "raw").1 "inner" rfl (by decide),
   ((error_extraction_priority (some "") none "serialized-body" "raw").2.1
      (Or.inr rfl)).2 (Or.inl rfl)⟩

/-- C7: the key selector fails with the local configuration error, and
issues no API call, whenever both `hash` and `pattern` are provided or
neither is; whenever exactly one is provided it proceeds to the remote
listing (its trace is exactly the one listing call). -/
theorem selector_exactly_one_validation (remote : Remote)
    (options : SelectorOptions) :
    (jsTruthy options.pattern = true → jsTruthy options.hash = true →
      getSelectedKeys remote options
        = (.error "Cannot specify both --pattern and --hash. Choose one.", []))
    ∧ (jsTruthy options.pattern = false → jsTruthy options.hash = false →
      getSelectedKeys remote options
        = (.error "Either --pattern or --hash must be provided", []))
    ∧ (jsTruthy options.pattern ≠ jsTruthy options.hash →
      (getSelectedKeys remote options).2 = [.listKeys true]) := by
  refine ⟨?_, ?_, ?_⟩
  · intro hp hh
    simp [getSelectedKeys, hp, hh]
  · intro hp hh
    simp [getSelectedKeys, hp, hh]
  · intro hne
    cases hp : jsTruthy options.pattern <;> cases hh : jsTruthy options.hash
    · simp [hp, hh] at hne
    · unfold getSelectedKeys
      simp only [hp, hh]
      split_ifs <;> simp_all
    · unfold getSelectedKeys
      simp only [hp, hh]
      split_ifs <;> simp_all
    · simp [hp, hh] at hne

/-- Witness for C7 at concrete inputs: both provided yields the
configuration error with an empty trace; hash-only proceeds to the
listing. -/
theorem selector_exactly_one_validation_witness :
    getSelectedKeys ⟨[], fun _ => .error "e", fun _ _ => .error "e",
        fun _ => .error "e", fun _ _ => .error "e", fun _ _ => .error "e"⟩
        ⟨some "a*", some "h1"⟩
      = (.error "Cannot specify both --pattern and --hash. Choose one.", [])
    ∧ (getSelectedKeys ⟨[], fun _ => .error "e", fun _ _ => .error "e",
        fun _ => .error "e", fun _ _ => .error "e", fun _ _ => .error "e"⟩
        ⟨none, some "h1"⟩).2 = [.listKeys true] :=
  ⟨(selector_exactly_one_validation _ ⟨some "a*", some "h1"⟩).1
      (by decide) (by decide),
   (selector_exactly_one_validation _ ⟨none, some "h1"⟩).2.2 (by decide)⟩

theorem deleteTargets_ok_pos (remote : Remote) (options : DeleteOptions)
    (keys : List OpenRouterKey) (h : deleteTargets remote options = .ok keys) :
    0 < keys.length := by
  simp only [deleteTargets] at h
  split_ifs at h with hhash hlen hlen
  all_goals
    injection h with h2
    subst h2
    omega

/-- C8 is false as stated: a run of the delete command whose prompt is
answered "no" does finish with both buckets empty, but its API-call
trace is the singleton listing call issued while resolving the targets
before the prompt — not zero network calls. -/
theorem delete_refusal_network_ce :
    deleteCommand wRemoteCreateFails ⟨none, some "h1", false⟩ false
      = (.ok ([], []), [.listKeys true])
    ∧ ([ApiCall.listKeys true] : List ApiCall) ≠ [] := by
  constructor
  · rfl
  · simp

/-- C8 (amended): every run of the delete command whose confirmation
prompt is reached and answered "no" completes with both result buckets
empty, and its only network call is the resolving listing issued before
the prompt — in particular no per-target delete call is issued. -/
theorem delete_refusal_empty_result (remote : Remote)
    (options : DeleteOptions) (res : List String × List BatchError)
    (trace : List ApiCall) (hconfirm : options.confirm = false)
    (hrun : deleteCommand remote options false = (.ok res, trace)) :
    res = ([], []) ∧ trace = [.listKeys true] := by
  unfold deleteCommand at hrun
  split at hrun
  · simp at hrun
  · split at hrun
    · simp at hrun
    · split at hrun
      · simp at hrun
      · rename_i keysToDelete heq
        have hpos := deleteTargets_ok_pos remote options keysToDelete heq
        have hcond :
            (!options.confirm && decide (0 < keysToDelete.length) && !false)
              = true := by
          simp [hconfirm, hpos]
        rw [if_pos hcond] at hrun
        simp only [Prod.mk.injEq, Except.ok.injEq] at hrun
        exact ⟨hrun.1.symm, hrun.2.symm⟩

/-- Witness for the amended C8 at a concrete run. -/
theorem delete_refusal_empty_result_witness :
    (([], []) : List String × List BatchError) = ([], [])
    ∧ ([ApiCall.listKeys true] : List ApiCall) = [.listKeys true] :=
  delete_refusal_empty_result wRemoteCreateFails ⟨none, some "h1", false⟩
    ([], []) [.listKeys true] rfl rfl

/-- Remote fixture for C10: an enabled key `alice` and a disabled key
`bob`. -/
def wRemoteDisabled : Remote where
  keys := [⟨"h1", "alice", false, some 10⟩, ⟨"h2", "bob", true, some 5⟩]
  getKeyResp := fun _ => .error "Not found: No key"
  createKeyResp := fun _ _ => .error "Server error: boom"
  deleteResp := fun _ => .ok ()
  setLimitResp := fun _ _ => .ok ()
  patchDisabledResp := fun _ _ => .ok ()

/-- C10: delete-by-name resolves through the listing with
`includeDisabled` defaulted to `false`, so when every credential with
the requested name is disabled, `deleteKey` fails with `Key not found`
and issues no delete call; disabled credentials do appear in the
`includeDisabled = true` listing used by the selector and are absent
from the default listing. -/
theorem delete_by_name_skips_disabled (remote : Remote) (keyName : String)
    (_hsome : ∃ k ∈ remote.keys, k.name = keyName ∧ k.disabled = true)
    (hall : ∀ k ∈ remote.keys, k.name = keyName → k.disabled = true) :
    deleteKey remote keyName
        = (.error ("Key not found: " ++ keyName), [.listKeys false])
    ∧ (∀ k ∈ remote.keys, k.disabled = true → k ∈ listKeys remote true)
    ∧ (∀ k ∈ remote.keys, k.disabled = true → k ∉ listKeys remote false) := by
  refine ⟨?_, ?_, ?_⟩
  · simp only [deleteKey]
    have hfind : (listKeys remote false).find? (fun k => k.name == keyName)
        = none := by
      apply List.find?_eq_none.mpr
      intro k hk
      simp only [listKeys, if_false, Bool.false_eq_true] at hk
      rw [List.mem_filter] at hk
      simp only [beq_iff_eq]
      intro hname
      have := hall k hk.1 hname
      simp [this] at hk
    rw [hfind]
  · intro k hk _
    simp [listKeys, hk]
  · intro k hk hd
    simp only [listKeys, if_false, Bool.false_eq_true]
    rw [List.mem_filter]
    simp [hd]

/-- Witness for C10: deleting `bob` by name fails with `Key not found`
although a (disabled) key named `bob` exists. -/
theorem delete_by_name_skips_disabled_witness :
    deleteKey wRemoteDisabled "bob"
      = (.error ("Key not found: " ++ "bob"), [.listKeys false]) :=
  (delete_by_name_skips_disabled wRemoteDisabled "bob"
    (by decide) (by decide)).1

end ORKM
